import Mathlib

/-
Verification of the message-ingestion and role-synchronization core of the
Zilliqa node (src/libZilliqa/Zilliqa.cpp), via a shallow embedding in Lean 4.

Byte buffers are `List Nat`; protocol-module handlers are identified by a
closed inductive type and their external behaviour (`Execute`,
`GetBroadcastList`) is a function parameter; the observable effects of each
operation (handler invocations, log lines, message releases) are returned
explicitly as data.
-/

namespace ZilliqaModel

/-- A network counterpart: host identifier and listening port
(libNetwork Peer, used by Zilliqa.cpp only as an opaque value plus
`m_listenPortHost`). -/
structure Peer where
  ipAddress : Nat
  listenPortHost : Nat
deriving DecidableEq, Repr

/-- Modelled from the spec: the `MessageOffset` constants of
`common/Messages.h`, which is not under src/.  Spec wire shape: byte 0 is
the type tag, byte 1 the instruction tag, payload from byte 2; minimum
valid length is the BODY offset. -/
def MessageOffset.TYPE : Nat := 0

/-- Modelled from the spec: instruction tag offset, the byte right after
the type tag. -/
def MessageOffset.INST : Nat := 1

/-- Modelled from the spec: start of the payload and minimum dispatchable
length. -/
def MessageOffset.BODY : Nat := 2

/-- The five protocol modules registered in Zilliqa.cpp:
`{&m_pm, &m_ds, &m_n, &m_cu, &m_lookup}`. -/
inductive HandlerId where
  | pm
  | ds
  | node
  | cu
  | lookup
deriving DecidableEq, Repr

/-- The fixed handler registry, in the order of the C++ array
`Executable* msg_handlers[] = {&m_pm, &m_ds, &m_n, &m_cu, &m_lookup}`. -/
def msg_handlers : List HandlerId :=
  [HandlerId.pm, HandlerId.ds, HandlerId.node, HandlerId.cu, HandlerId.lookup]

/-- `sizeof(msg_handlers) / sizeof(Executable*)`. -/
def msg_handlers_count : Nat := msg_handlers.length

/-- A raw message as Zilliqa.cpp sees it: an owned byte buffer plus its
originating peer (`pair<vector<unsigned char>, Peer>`). -/
abbrev RawMessage : Type := List Nat × Peer

/-- Observable effects of one `Zilliqa::ProcessMessage` run: the handler
`Execute` invocations (handler, buffer, offset, sender), the results those
invocations returned, warning log lines, and how many times the message
was released (`delete message`). -/
structure Effects where
  calls : List (HandlerId × List Nat × Nat × Peer)
  results : List Bool
  warnings : List String
  deletes : Nat
deriving DecidableEq, Repr

/-- Embeds `Zilliqa::ProcessMessage` (Zilliqa.cpp:61-91).  `exec` gives the
behaviour of each module's `Execute`.  If the buffer reaches the BODY
offset, the byte at the TYPE offset selects the handler when in range,
the handler is run on the buffer at the INST offset, its result is read
and ignored (the `result == false` branch is an empty to-do); out-of-range
tags log "Unknown message type".  In every path the message is deleted
exactly once at the end. -/
def processMessage (exec : HandlerId → List Nat → Nat → Peer → Bool)
    (message : RawMessage) : Effects :=
  if MessageOffset.BODY ≤ message.1.length then
    let msg_type := message.1.getD MessageOffset.TYPE 0
    if h : msg_type < msg_handlers_count then
      let handler := msg_handlers.get ⟨msg_type, h⟩
      let result := exec handler message.1 MessageOffset.INST message.2
      { calls := [(handler, message.1, MessageOffset.INST, message.2)],
        results := [result],
        warnings := [],
        deletes := 1 }
    else
      { calls := [], results := [],
        warnings := ["Unknown message type"], deletes := 1 }
  else
    { calls := [], results := [], warnings := [], deletes := 1 }

/-- Result of `Zilliqa::RetrieveBroadcastList`: the returned peer list and
any warning log lines. -/
structure BroadcastResult where
  peers : List Peer
  warnings : List String
deriving DecidableEq, Repr

/-- Embeds `Zilliqa::RetrieveBroadcastList` (Zilliqa.cpp:214-237). `gbl`
gives the behaviour of each module's `GetBroadcastList`.  An in-range type
tag dispatches to the registry entry at that index; an out-of-range tag
logs "Unknown message type" and yields the empty list. -/
def retrieveBroadcastList (gbl : HandlerId → Nat → Peer → List Peer)
    (msg_type : Nat) (ins_type : Nat) (sender : Peer) : BroadcastResult :=
  if h : msg_type < msg_handlers_count then
    { peers := gbl (msg_handlers.get ⟨msg_type, h⟩) ins_type sender,
      warnings := [] }
  else
    { peers := [], warnings := ["Unknown message type"] }

/-- Modelled from the spec: the `SyncType` enum of `common/Constants.h`
(not under src/), in the spec's SyncMode order
{no-sync, new-node-sync, normal-sync, directory-service-sync, lookup-sync}. -/
def SyncType.NO_SYNC : Nat := 0

/-- Modelled from the spec: new-node-sync. -/
def SyncType.NEW_SYNC : Nat := 1

/-- Modelled from the spec: normal-sync. -/
def SyncType.NORMAL_SYNC : Nat := 2

/-- Modelled from the spec: directory-service-sync. -/
def SyncType.DS_SYNC : Nat := 3

/-- Modelled from the spec: lookup-sync. -/
def SyncType.LOOKUP_SYNC : Nat := 4

/-- The synchronization actions taken by the `switch (syncType)` block of
the `Zilliqa::Zilliqa` constructor: the sync-mode constant stored on the
lookup collaborator (`m_mediator.m_lookup->m_syncType`), the node's
`m_runFromLate` flag, how many times each module's `StartSynchronization`
entry point is invoked, and whether the whitelist is initialized. -/
structure SyncActions where
  lookupSyncType : Option Nat
  runFromLate : Bool
  nodeStartSync : Nat
  dsStartSync : Nat
  lookupStartSync : Nat
  whitelistInit : Bool
deriving DecidableEq, Repr

/-- The state before the switch block runs: nothing marked, no
synchronization entry point invoked. -/
def SyncActions.none : SyncActions :=
  { lookupSyncType := Option.none, runFromLate := false,
    nodeStartSync := 0, dsStartSync := 0, lookupStartSync := 0,
    whitelistInit := false }

/-- Effects of the constructor's sync switch: actions plus its info and
warning log lines. -/
structure CtorSwitchEffects where
  actions : SyncActions
  infos : List String
  warnings : List String
deriving DecidableEq, Repr

/-- Embeds the `switch (syncType)` block of `Zilliqa::Zilliqa`
(Zilliqa.cpp:135-177).  `isLookupNode` selects which cases are compiled
(`IS_LOOKUP_NODE`): NEW_SYNC / NORMAL_SYNC / DS_SYNC exist only on an
ordinary node, LOOKUP_SYNC only on a lookup node; any other value hits
the default case, which only warns "Invalid Sync Type". -/
def syncSwitch (isLookupNode : Bool) (syncType : Nat)
    (toRetrieveHistory : Bool) : CtorSwitchEffects :=
  if syncType = SyncType.NO_SYNC then
    { actions := { SyncActions.none with whitelistInit := true },
      infos := ["No Sync Needed"], warnings := [] }
  else if isLookupNode then
    if syncType = SyncType.LOOKUP_SYNC then
      { actions := { SyncActions.none with
          lookupSyncType := some SyncType.LOOKUP_SYNC,
          lookupStartSync := 1 },
        infos := ["Sync as a lookup node"], warnings := [] }
    else
      { actions := SyncActions.none, infos := [],
        warnings := ["Invalid Sync Type"] }
  else if syncType = SyncType.NEW_SYNC then
    if ¬toRetrieveHistory then
      { actions := { SyncActions.none with
          lookupSyncType := some SyncType.NEW_SYNC,
          runFromLate := true,
          nodeStartSync := 1 },
        infos := ["Sync as a new node"], warnings := [] }
    else
      { actions := SyncActions.none,
        infos := ["Sync as a new node"],
        warnings := ["Error: Sync for new node shouldn't retrieve history"] }
  else if syncType = SyncType.NORMAL_SYNC then
    { actions := { SyncActions.none with
        lookupSyncType := some SyncType.NORMAL_SYNC,
        runFromLate := true,
        nodeStartSync := 1 },
      infos := ["Sync as a normal node"], warnings := [] }
  else if syncType = SyncType.DS_SYNC then
    { actions := { SyncActions.none with
        lookupSyncType := some SyncType.DS_SYNC,
        dsStartSync := 1 },
      infos := ["Sync as a ds node"], warnings := [] }
  else
    { actions := SyncActions.none, infos := [],
      warnings := ["Invalid Sync Type"] }

/-- Modelled from the spec: `ACC_ADDR_SIZE` (common/Constants.h, not under
src/); the spec fixes the address width at 20 bytes. -/
def ACC_ADDR_SIZE : Nat := 20

/-- Modelled from the spec: `PUB_KEY_SIZE` (libCrypto, not under src/),
the byte length of a serialized public key. -/
def PUB_KEY_SIZE : Nat := 33

/-- One `sha2.Update(buf, offset, size)` call on the accumulated hash
input (libCrypto SHA2 interface as used at Zilliqa.cpp:51): appends
`size` bytes of `buf` starting at `offset`. -/
def sha2_update (acc buf : List Nat) (offset size : Nat) : List Nat :=
  acc ++ (buf.drop offset).take size

/-- Embeds the address computation of `Zilliqa::LogSelfNodeInfo`
(Zilliqa.cpp:47-54): Reset; Update(serialized public key, 0,
PUB_KEY_SIZE); Finalize; then copy the bytes from `tmp3.end() -
ACC_ADDR_SIZE` to `tmp3.end()` into the address. `sha256` is the
(external) hash function; `serializedPub` is the output of
`PubKey::Serialize`. -/
def deriveAddress (sha256 : List Nat → List Nat)
    (serializedPub : List Nat) : List Nat :=
  let message := sha2_update [] serializedPub 0 PUB_KEY_SIZE
  let tmp3 := sha256 message
  tmp3.drop (tmp3.length - ACC_ADDR_SIZE)

/-- One log line of `Zilliqa::LogSelfNodeInfo`: a payload dump
(LOG_PAYLOAD) or a general line (LOG_GENERAL). -/
inductive LogEntry where
  | payload (name : String) (data : List Nat)
  | selfAddress (addr : List Nat) (port : Nat)
  | general (text : String)
deriving DecidableEq, Repr

/-- Embeds `Zilliqa::LogSelfNodeInfo` (Zilliqa.cpp:35-59): logs the
serialized private key, the serialized public key, and the derived
address together with the listening port. -/
def logSelfNodeInfo (sha256 : List Nat → List Nat)
    (serializedPriv serializedPub : List Nat) (peer : Peer) :
    List LogEntry :=
  [LogEntry.payload "Private Key" serializedPriv,
   LogEntry.payload "Public Key" serializedPub,
   LogEntry.selfAddress (deriveAddress sha256 serializedPub)
     peer.listenPortHost]

/-- The log output of the `Zilliqa::Zilliqa` constructor body
(Zilliqa.cpp:107-192): it unconditionally calls `LogSelfNodeInfo(key,
peer)` at line 131 and then runs the sync switch, whose info and warning
lines follow. -/
def zilliqaCtorLog (sha256 : List Nat → List Nat)
    (serializedPriv serializedPub : List Nat) (peer : Peer)
    (isLookupNode : Bool) (syncType : Nat) (toRetrieveHistory : Bool) :
    List LogEntry :=
  logSelfNodeInfo sha256 serializedPriv serializedPub peer
    ++ ((syncSwitch isLookupNode syncType toRetrieveHistory).infos.map
          LogEntry.general)
    ++ ((syncSwitch isLookupNode syncType toRetrieveHistory).warnings.map
          LogEntry.general)

/-- Embeds `Zilliqa::Dispatch` (Zilliqa.cpp:203-212):
`while (!m_msgQueue.push(message)) {}`.  `pushResults` is the trace of
outcomes of the successive `push` attempts (false while the bounded queue
is full).  Returns the number of attempts consumed when a push succeeds;
`none` when every attempt in the trace fails, i.e. the loop is still
spinning and has not returned. -/
def dispatchRun : List Bool → Option Nat
  | [] => Option.none
  | b :: rest =>
      if b then some 1 else (dispatchRun rest).map (· + 1)

/-- State of the dispatcher's message lifecycle: the FIFO queue contents
(`m_msgQueue`), the messages released so far (`delete message`), and the
handler `Execute` invocations made so far. -/
structure DispatcherState where
  msgQueue : List RawMessage
  released : List RawMessage
  execCalls : List (HandlerId × List Nat × Nat × Peer)
deriving Repr

/-- The dispatcher before any message arrives. -/
def DispatcherState.init : DispatcherState :=
  { msgQueue := [], released := [], execCalls := [] }

/-- One lifecycle event: `dispatch m` is a `Zilliqa::Dispatch` call that
enqueued `m`; `work` is one intake-loop pop handed to a worker job that
ran `Zilliqa::ProcessMessage` to completion (a no-op when the queue is
empty, as `m_msgQueue.pop` fails). -/
inductive DispatchOp where
  | dispatch (m : RawMessage)
  | work

/-- Apply one lifecycle event.  `work` pops the front message, performs
the `ProcessMessage` effects (handler calls per the registry, then
`delete message`), and records the release. -/
def stepOp (exec : HandlerId → List Nat → Nat → Peer → Bool)
    (s : DispatcherState) : DispatchOp → DispatcherState
  | DispatchOp.dispatch m => { s with msgQueue := s.msgQueue ++ [m] }
  | DispatchOp.work =>
      match s.msgQueue with
      | [] => s
      | m :: rest =>
          { msgQueue := rest,
            released := s.released ++ [m],
            execCalls := s.execCalls ++ (processMessage exec m).calls }

/-- Run a sequence of lifecycle events. -/
def runOps (exec : HandlerId → List Nat → Nat → Peer → Bool)
    (s : DispatcherState) : List DispatchOp → DispatcherState
  | [] => s
  | op :: rest => runOps exec (stepOp exec s op) rest

/-- Embeds `Zilliqa::~Zilliqa` (Zilliqa.cpp:194-201): pop every message
still resident in the queue and delete it, executing no handler. -/
def shutdownDrain (s : DispatcherState) : DispatcherState :=
  { msgQueue := [],
    released := s.released ++ s.msgQueue,
    execCalls := s.execCalls }

/-- The messages enqueued by a sequence of lifecycle events, in order. -/
def dispatched : List DispatchOp → List RawMessage
  | [] => []
  | DispatchOp.dispatch m :: rest => m :: dispatched rest
  | DispatchOp.work :: rest => dispatched rest

/-! Shared helper lemmas about `processMessage`. -/

/-- Helper: the effects of `processMessage` on a well-formed message with
an in-range type tag. -/
theorem processMessage_in_range
    (exec : HandlerId → List Nat → Nat → Peer → Bool)
    (bytes : List Nat) (sender : Peer)
    (hlen : MessageOffset.BODY ≤ bytes.length)
    (htag : bytes.getD MessageOffset.TYPE 0 < msg_handlers_count) :
    processMessage exec (bytes, sender) =
      { calls := [(msg_handlers.get ⟨bytes.getD MessageOffset.TYPE 0, htag⟩,
                   bytes, MessageOffset.INST, sender)],
        results := [exec
          (msg_handlers.get ⟨bytes.getD MessageOffset.TYPE 0, htag⟩)
          bytes MessageOffset.INST sender],
        warnings := [],
        deletes := 1 } := by
  simp only [processMessage]
  rw [if_pos hlen, dif_pos htag]

/-- C1: a message of length at least BODY whose type tag is below the
handler count is routed to exactly the registry entry at the tag's index,
invoking its Execute exactly once, on the message bytes at the INST
offset and the originating peer; no other handler is invoked, no warning
is logged, and the message is released once. -/
theorem C1_processMessage_routes_by_type_tag
    (exec : HandlerId → List Nat → Nat → Peer → Bool)
    (bytes : List Nat) (sender : Peer)
    (hlen : MessageOffset.BODY ≤ bytes.length)
    (htag : bytes.getD MessageOffset.TYPE 0 < msg_handlers_count) :
    (processMessage exec (bytes, sender)).calls =
      [(msg_handlers.get ⟨bytes.getD MessageOffset.TYPE 0, htag⟩,
        bytes, MessageOffset.INST, sender)] ∧
    (processMessage exec (bytes, sender)).warnings = [] ∧
    (processMessage exec (bytes, sender)).deletes = 1 := by
  rw [processMessage_in_range exec bytes sender hlen htag]
  exact ⟨rfl, rfl, rfl⟩

/-- Witness for C1: a 3-byte message with type tag 2 is routed exactly to
the third registry entry, the node handler. -/
theorem C1_witness :
    (processMessage (fun _ _ _ _ => true) ([2, 7, 9], ⟨5, 6⟩)).calls =
      [(HandlerId.node, [2, 7, 9], 1, ⟨5, 6⟩)] ∧
    (processMessage (fun _ _ _ _ => true) ([2, 7, 9], ⟨5, 6⟩)).warnings
      = [] ∧
    (processMessage (fun _ _ _ _ => true) ([2, 7, 9], ⟨5, 6⟩)).deletes
      = 1 := by
  have h := C1_processMessage_routes_by_type_tag
    (fun _ _ _ _ => true) [2, 7, 9] ⟨5, 6⟩ (by decide) (by decide)
  simpa using h

/-- C2 counterexample: on a 1-byte message, ProcessMessage invokes no
handler and releases the message once, but its warning log is EMPTY — the
too-short branch of Zilliqa.cpp:63-88 falls through to `delete` without
logging, so the claim's "records a log warning" is false on this input. -/
theorem C2_counterexample :
    (processMessage (fun _ _ _ _ => true) ([0], ⟨0, 0⟩)).calls = [] ∧
    (processMessage (fun _ _ _ _ => true) ([0], ⟨0, 0⟩)).deletes = 1 ∧
    (processMessage (fun _ _ _ _ => true) ([0], ⟨0, 0⟩)).warnings = [] := by
  exact ⟨rfl, rfl, rfl⟩

/-- C2 (amended): a message shorter than the BODY offset is discarded
without invoking any handler, its ownership is released exactly once, and
no log line is recorded. -/
theorem C2_short_message_discarded
    (exec : HandlerId → List Nat → Nat → Peer → Bool)
    (bytes : List Nat) (sender : Peer)
    (hlen : bytes.length < MessageOffset.BODY) :
    processMessage exec (bytes, sender) =
      { calls := [], results := [], warnings := [], deletes := 1 } := by
  simp only [processMessage]
  rw [if_neg (Nat.not_le.mpr hlen)]

/-- Witness for C2 (amended): the 1-byte message. -/
theorem C2_witness :
    processMessage (fun _ _ _ _ => true) ([0], ⟨0, 0⟩) =
      { calls := [], results := [], warnings := [], deletes := 1 } :=
  C2_short_message_discarded (fun _ _ _ _ => true) [0] ⟨0, 0⟩ (by decide)

/-- C3: for a type tag at or above the registry size, ProcessMessage (on
a buffer long enough to be read) invokes no handler, logs the
unknown-message-type warning and releases the message once, and
RetrieveBroadcastList invokes no handler, logs a warning and returns the
empty peer list; both are total functions, so neither crashes. -/
theorem C3_unknown_type_tag_safe
    (exec : HandlerId → List Nat → Nat → Peer → Bool)
    (gbl : HandlerId → Nat → Peer → List Peer)
    (bytes : List Nat) (sender other : Peer) (tag ins : Nat)
    (hlen : MessageOffset.BODY ≤ bytes.length)
    (htag : msg_handlers_count ≤ bytes.getD MessageOffset.TYPE 0)
    (htag2 : msg_handlers_count ≤ tag) :
    processMessage exec (bytes, sender) =
      { calls := [], results := [],
        warnings := ["Unknown message type"], deletes := 1 } ∧
    retrieveBroadcastList gbl tag ins other =
      { peers := [], warnings := ["Unknown message type"] } := by
  constructor
  · simp only [processMessage]
    rw [if_pos hlen, dif_neg (Nat.not_lt.mpr htag)]
  · simp only [retrieveBroadcastList]
    rw [dif_neg (Nat.not_lt.mpr htag2)]

/-- Witness for C3: a message with type tag 7 and a broadcast lookup for
tag 200. -/
theorem C3_witness :
    processMessage (fun _ _ _ _ => true) ([7, 1, 2], ⟨1, 2⟩) =
      { calls := [], results := [],
        warnings := ["Unknown message type"], deletes := 1 } ∧
    retrieveBroadcastList (fun _ _ _ => []) 200 3 ⟨9, 9⟩ =
      { peers := [], warnings := ["Unknown message type"] } :=
  C3_unknown_type_tag_safe (fun _ _ _ _ => true) (fun _ _ _ => [])
    [7, 1, 2] ⟨1, 2⟩ ⟨9, 9⟩ 200 3 (by decide) (by decide) (by decide)

/-- C6: when the routed handler's Execute returns false, the dispatcher
performs no retry and no recovery: exactly one Execute call is made, the
message is released exactly once, and every observable effect other than
the recorded result is identical to the run where Execute succeeds. -/
theorem C6_execute_failure_noop
    (exec : HandlerId → List Nat → Nat → Peer → Bool)
    (bytes : List Nat) (sender : Peer)
    (hlen : MessageOffset.BODY ≤ bytes.length)
    (htag : bytes.getD MessageOffset.TYPE 0 < msg_handlers_count)
    (hfail : exec (msg_handlers.get ⟨bytes.getD MessageOffset.TYPE 0, htag⟩)
        bytes MessageOffset.INST sender = false) :
    (processMessage exec (bytes, sender)).calls.length = 1 ∧
    (processMessage exec (bytes, sender)).results = [false] ∧
    (processMessage exec (bytes, sender)).deletes = 1 ∧
    (processMessage exec (bytes, sender)).calls =
      (processMessage (fun _ _ _ _ => true) (bytes, sender)).calls ∧
    (processMessage exec (bytes, sender)).warnings =
      (processMessage (fun _ _ _ _ => true) (bytes, sender)).warnings ∧
    (processMessage exec (bytes, sender)).deletes =
      (processMessage (fun _ _ _ _ => true) (bytes, sender)).deletes := by
  rw [processMessage_in_range exec bytes sender hlen htag,
    processMessage_in_range (fun _ _ _ _ => true) bytes sender hlen htag,
    hfail]
  exact ⟨rfl, rfl, rfl, rfl, rfl, rfl⟩

/-- Witness for C6: a handler that always fails, on a type-tag-0 message. -/
theorem C6_witness :
    (processMessage (fun _ _ _ _ => false) ([0, 4], ⟨3, 3⟩)).calls.length
      = 1 ∧
    (processMessage (fun _ _ _ _ => false) ([0, 4], ⟨3, 3⟩)).results
      = [false] ∧
    (processMessage (fun _ _ _ _ => false) ([0, 4], ⟨3, 3⟩)).deletes = 1 ∧
    (processMessage (fun _ _ _ _ => false) ([0, 4], ⟨3, 3⟩)).calls =
      (processMessage (fun _ _ _ _ => true) ([0, 4], ⟨3, 3⟩)).calls ∧
    (processMessage (fun _ _ _ _ => false) ([0, 4], ⟨3, 3⟩)).warnings =
      (processMessage (fun _ _ _ _ => true) ([0, 4], ⟨3, 3⟩)).warnings ∧
    (processMessage (fun _ _ _ _ => false) ([0, 4], ⟨3, 3⟩)).deletes =
      (processMessage (fun _ _ _ _ => true) ([0, 4], ⟨3, 3⟩)).deletes :=
  C6_execute_failure_noop (fun _ _ _ _ => false) [0, 4] ⟨3, 3⟩
    (by decide) (by decide) rfl

/-- Helper: running lifecycle events preserves the invariant that the
released messages followed by the still-queued messages are exactly the
prior contents plus everything dispatched, in order. -/
theorem runOps_released_append_queue
    (exec : HandlerId → List Nat → Nat → Peer → Bool)
    (ops : List DispatchOp) (s : DispatcherState) :
    (runOps exec s ops).released ++ (runOps exec s ops).msgQueue =
      s.released ++ s.msgQueue ++ dispatched ops := by
  induction ops generalizing s with
  | nil => simp [runOps, dispatched]
  | cons op rest ih =>
    cases op with
    | dispatch m =>
        rw [runOps, stepOp, dispatched, ih]
        simp
    | work =>
        rw [runOps, stepOp]
        cases hq : s.msgQueue with
        | nil => rw [dispatched, ih]; simp [hq]
        | cons m tl => rw [dispatched, ih]; simp [hq]

/-- C4: after any interleaving of N Dispatch calls and worker pops,
followed by the destructor's shutdown drain, the list of released
messages is exactly the list of dispatched messages — each of the N
messages is released exactly once, none is double-freed or leaked — the
drain leaves the queue empty, and the drain itself executes no handler
(handler calls after shutdown are exactly those made by worker pops). -/
theorem C4_dispatch_drain_exact_release
    (exec : HandlerId → List Nat → Nat → Peer → Bool)
    (ops : List DispatchOp) :
    (shutdownDrain (runOps exec DispatcherState.init ops)).released =
      dispatched ops ∧
    (∀ m : RawMessage,
      (shutdownDrain (runOps exec DispatcherState.init ops)).released.count
          m = (dispatched ops).count m) ∧
    (shutdownDrain (runOps exec DispatcherState.init ops)).execCalls =
      (runOps exec DispatcherState.init ops).execCalls ∧
    (shutdownDrain (runOps exec DispatcherState.init ops)).msgQueue
      = [] := by
  have hrel : (shutdownDrain (runOps exec DispatcherState.init ops)).released
      = dispatched ops := by
    have h := runOps_released_append_queue exec ops DispatcherState.init
    simp [DispatcherState.init] at h
    simpa [shutdownDrain] using h
  exact ⟨hrel, fun m => by rw [hrel], rfl, rfl⟩

/-- C5: the address computed by LogSelfNodeInfo is a deterministic pure
function of the public key — when the serialized public key has the
public-key width, the derived address is exactly the trailing
ACC_ADDR_SIZE bytes of the hash of the serialized key, and repeated
calls on an equal serialization give a byte-identical address. -/
theorem C5_deriveAddress_deterministic_trailing_bytes
    (sha256 : List Nat → List Nat) (ser : List Nat)
    (hlen : ser.length = PUB_KEY_SIZE) :
    deriveAddress sha256 ser =
      (sha256 ser).drop ((sha256 ser).length - ACC_ADDR_SIZE) ∧
    ∀ ser2 : List Nat, ser2 = ser →
      deriveAddress sha256 ser2 = deriveAddress sha256 ser := by
  constructor
  · simp only [deriveAddress, sha2_update, List.drop_zero, List.nil_append]
    rw [List.take_of_length_le (le_of_eq hlen)]
  · intro ser2 h
    rw [h]

/-- Witness for C5: a concrete 33-byte serialization and a fixed hash
output. -/
theorem C5_witness :
    deriveAddress (fun _ => List.range 32) (List.range 33) =
      (List.range 32).drop ((List.range 32).length - ACC_ADDR_SIZE) ∧
    ∀ ser2 : List Nat, ser2 = List.range 33 →
      deriveAddress (fun _ => List.range 32) ser2 =
        deriveAddress (fun _ => List.range 32) (List.range 33) :=
  C5_deriveAddress_deterministic_trailing_bytes
    (fun _ => List.range 32) (List.range 33) (by decide)

/-- C7: on an ordinary node with sync mode new-node-sync and
retrieveHistory true, the constructor's sync switch marks no lookup sync
mode, invokes no StartSynchronization entry point, and records the
warning; the switch still returns, so construction completes. -/
theorem C7_newSync_with_history_no_sync :
    syncSwitch false SyncType.NEW_SYNC true =
      { actions := SyncActions.none,
        infos := ["Sync as a new node"],
        warnings :=
          ["Error: Sync for new node shouldn't retrieve history"] } := by
  rfl

/-- C8: the Dispatch loop never drops a message.  Whenever the loop
returns after n push attempts, the first n-1 attempts failed and the nth
succeeded — the message was placed in the queue exactly once before
returning; and the loop has not returned exactly when every push attempt
so far failed (a full queue stalls the caller instead of losing the
message). -/
theorem C8_dispatch_backpressure_no_drop (tr : List Bool) :
    (∀ n, dispatchRun tr = some n →
        1 ≤ n ∧ tr.take n = List.replicate (n - 1) false ++ [true]) ∧
    (dispatchRun tr = Option.none ↔ ∀ b ∈ tr, b = false) := by
  induction tr with
  | nil =>
      refine ⟨fun n h => by simp [dispatchRun] at h, ?_⟩
      simp [dispatchRun]
  | cons b rest ih =>
      cases b with
      | true =>
          refine ⟨fun n h => ?_, by simp [dispatchRun]⟩
          simp only [dispatchRun, if_pos] at h
          obtain rfl : 1 = n := Option.some.inj h
          simp
      | false =>
          have hd : dispatchRun (false :: rest) =
              (dispatchRun rest).map (· + 1) := by
            simp [dispatchRun]
          constructor
          · intro n h
            rw [hd, Option.map_eq_some'] at h
            obtain ⟨m, hm, hn⟩ := h
            obtain ⟨h1, htake⟩ := ih.1 m hm
            obtain ⟨k, rfl⟩ : ∃ k, m = k + 1 :=
              ⟨m - 1, (Nat.succ_pred_eq_of_pos h1).symm⟩
            subst hn
            refine ⟨by omega, ?_⟩
            simp only [Nat.add_sub_cancel] at htake ⊢
            rw [List.take_succ_cons, htake]
            simp [List.replicate_succ]
          · rw [hd, Option.map_eq_none', ih.2]
            constructor
            · intro h b hb
              cases hb with
              | head => rfl
              | tail _ hb => exact h b hb
            · intro h b hb
              exact h b (List.mem_cons_of_mem _ hb)

/-- Witness for C8: with two failed pushes then a successful one, the
loop returns after attempt 3 and the trace up to there is two failures
followed by the success. -/
theorem C8_witness :
    1 ≤ 3 ∧
    [false, false, true].take 3 =
      List.replicate (3 - 1) false ++ [true] :=
  (C8_dispatch_backpressure_no_drop [false, false, true]).1 3 (by decide)

/-- C9: the constructor log always contains the serialized private key,
and two constructor runs that differ only in the private key produce
different log output — the startup log does not satisfy noninterference
from the private key. -/
theorem C9_ctor_log_leaks_private_key
    (sha256 : List Nat → List Nat)
    (serPriv1 serPriv2 serPub : List Nat) (peer : Peer)
    (isLookupNode : Bool) (syncType : Nat) (trh : Bool)
    (hne : serPriv1 ≠ serPriv2) :
    LogEntry.payload "Private Key" serPriv1 ∈
      zilliqaCtorLog sha256 serPriv1 serPub peer isLookupNode syncType trh
    ∧
    zilliqaCtorLog sha256 serPriv1 serPub peer isLookupNode syncType trh ≠
      zilliqaCtorLog sha256 serPriv2 serPub peer isLookupNode syncType
        trh := by
  constructor
  · simp [zilliqaCtorLog, logSelfNodeInfo]
  · intro heq
    simp only [zilliqaCtorLog, logSelfNodeInfo, List.cons_append,
      List.cons.injEq, LogEntry.payload.injEq] at heq
    exact hne heq.1.2

/-- Witness for C9: two runs with private-key serializations [0] and [1]
and everything else equal. -/
theorem C9_witness :
    LogEntry.payload "Private Key" [0] ∈
      zilliqaCtorLog (fun _ => List.range 32) [0] [7] ⟨1, 2⟩ false
        SyncType.NO_SYNC false
    ∧
    zilliqaCtorLog (fun _ => List.range 32) [0] [7] ⟨1, 2⟩ false
        SyncType.NO_SYNC false ≠
      zilliqaCtorLog (fun _ => List.range 32) [1] [7] ⟨1, 2⟩ false
        SyncType.NO_SYNC false :=
  C9_ctor_log_leaks_private_key (fun _ => List.range 32) [0] [1] [7]
    ⟨1, 2⟩ false SyncType.NO_SYNC false (by decide)

/-- C10: on an ordinary node, new-node-sync without history retrieval and
normal-sync take the same synchronization actions — both set the
run-from-late flag, both invoke the Node StartSynchronization entry point
exactly once, and they differ only in the sync-mode constant recorded on
the lookup collaborator. -/
theorem C10_newSync_normalSync_equivalent (b : Bool) :
    (syncSwitch false SyncType.NEW_SYNC false).actions =
      { lookupSyncType := some SyncType.NEW_SYNC, runFromLate := true,
        nodeStartSync := 1, dsStartSync := 0, lookupStartSync := 0,
        whitelistInit := false } ∧
    (syncSwitch false SyncType.NORMAL_SYNC b).actions =
      { lookupSyncType := some SyncType.NORMAL_SYNC, runFromLate := true,
        nodeStartSync := 1, dsStartSync := 0, lookupStartSync := 0,
        whitelistInit := false } ∧
    { (syncSwitch false SyncType.NEW_SYNC false).actions with
        lookupSyncType := some SyncType.NORMAL_SYNC } =
      (syncSwitch false SyncType.NORMAL_SYNC b).actions := by
  exact ⟨rfl, rfl, rfl⟩

end ZilliqaModel
